import Mathlib

/-!
Verification development for the rustcroissant library: a shallow embedding of
its Croissant metadata model (src/croissant/core.rs), its validator
(src/croissant/validate.rs) and its generator (src/croissant/generate.rs),
together with theorems settling the specification claims.

Field shapes follow the schema revision that the validator is written against
(spec section 9a documents two revisions): `Metadata.record_sets`,
`Field.source` and `FileObject.content_url` are optional, exactly as
validate.rs pattern-matches them; everything else is taken field by field from
core.rs.
-/

namespace Croissant

/-! ## JSON values (the serde_json value model, as far as the codec claims need it) -/

/-- A JSON value. The numeric payload is irrelevant to every claim (no decoder
under study accepts a number), so it is kept as an integer. -/
inductive Json where
  | null : Json
  | bool (b : Bool) : Json
  | num (n : Int) : Json
  | str (s : String) : Json
  | arr (elems : List Json) : Json
  | obj (members : List (String × Json)) : Json

/-- Mirrors serde_json `Value::is_array`. -/
def Json.is_array : Json → Bool
  | .arr _ => true
  | _ => false

/-! ## Core entity model (core.rs) -/

/-- Rust: `pub struct Text` wrapping a copy-on-write string; `pub type Id = Text`. The
newtype is modelled as the underlying string; the garde non-emptiness rule is a
validation-time concern, not part of the data. -/
abbrev Text := String

/-- Rust: `impl fmt::Display for Id` writes `id:<value>`. Because `Id` is a
type alias of `Text`, this is the Display implementation used whenever any
`Text` field (names included) is formatted in validator messages. -/
def displayText (t : Text) : String := "id:" ++ t

/-- Rust enum `CroissantType` (core.rs line 45). -/
inductive CroissantType where
  | Dataset : CroissantType
deriving DecidableEq

/-- Rust enum `CrType` (core.rs line 53). -/
inductive CrType where
  | RecordSet : CrType
  | Field : CrType
  | FileObject : CrType
  | FileSet : CrType
deriving DecidableEq

/-- Rust: `impl fmt::Display for CrType` (core.rs lines 64-74). -/
def CrType.display : CrType → String
  | .RecordSet => "cr:RecordSet"
  | .Field => "cr:Field"
  | .FileObject => "cr:FileObject"
  | .FileSet => "cr:FileSet"

/-- Rust enum `BoundingBoxFormat` (core.rs line 164). -/
inductive BoundingBoxFormat where
  | CenterXywh : BoundingBoxFormat
  | Xywh : BoundingBoxFormat
  | Xyxy : BoundingBoxFormat
deriving DecidableEq

/-- Rust enum `DataType` (core.rs lines 76-105). -/
inductive DataType where
  | Enumeration : DataType
  | Boolean : DataType
  | Integer : DataType
  | Float : DataType
  | Text : DataType
  | Date : DataType
  | DateTime : DataType
  | Url : DataType
  | ImageObject : DataType
  | BoundingBox (format : BoundingBoxFormat) : DataType
  | Split : DataType
  | Label : DataType
  | CustomIri (value : Text) : DataType
deriving DecidableEq

/-- Rust struct `Ref` (core.rs line 385): a single `@id` reference. -/
structure Ref where
  id : Text
deriving DecidableEq

/-- Rust struct `FieldRef` (core.rs line 393). -/
structure FieldRef where
  field : Ref
deriving DecidableEq

/-- Rust enum `FileProperty` (core.rs line 277). -/
inductive FileProperty where
  | FullPath : FileProperty
  | FileName : FileProperty
  | Content : FileProperty
  | Lines : FileProperty
  | LineNumbers : FileProperty
deriving DecidableEq

/-- Rust enum `Extract` (core.rs lines 252-273). -/
inductive Extract where
  | Column (name : Text) : Extract
  | FileProperty (property : FileProperty) : Extract
  | JsonPath (expr : Text) : Extract
deriving DecidableEq

/-- Rust enum `Transform` (core.rs lines 293-314). -/
inductive Transform where
  | Regex (pattern : Text) : Transform
  | Delimiter (char : Char) : Transform
  | JsonQuery (query : Text) : Transform
deriving DecidableEq

/-- Rust enum `ValueFormat` (core.rs lines 319-340). -/
inductive ValueFormat where
  | Date (pattern : Text) : ValueFormat
  | Number (pattern : Text) : ValueFormat
  | BoundingBox (format : BoundingBoxFormat) : ValueFormat
deriving DecidableEq

/-- Rust enum `SourceRef` (core.rs lines 365-381). -/
inductive SourceRef where
  | FileObject (file_object : Ref) : SourceRef
  | FileSet (file_set : Ref) : SourceRef
  | RecordSet (record_set : Ref) : SourceRef
deriving DecidableEq

/-- Rust struct `FieldSource` (core.rs lines 344-354). -/
structure FieldSource where
  source : SourceRef
  extract : Option Extract
  transform : Option (List Transform)
  format : Option ValueFormat
deriving DecidableEq

/-- Rust struct `Field` (core.rs lines 400-431), with `source` optional as the
validator revision has it. A recursive structure must be an inductive in Lean;
accessors are defined below. -/
inductive Field where
  | mk (id : Text) (kind : CrType) (name : Text) (description : Text)
      (data_types : List DataType) (source : Option FieldSource)
      (references : List FieldRef) (sub_fields : Option (List Field))
      (parent_fields : Option (List Text)) (repeated : Option Bool)
      (equivalent_properties : Option (List Text)) : Field

def Field.id : Field → Text
  | .mk i _ _ _ _ _ _ _ _ _ _ => i

def Field.kind : Field → CrType
  | .mk _ k _ _ _ _ _ _ _ _ _ => k

def Field.name : Field → Text
  | .mk _ _ n _ _ _ _ _ _ _ _ => n

def Field.description : Field → Text
  | .mk _ _ _ d _ _ _ _ _ _ _ => d

def Field.data_types : Field → List DataType
  | .mk _ _ _ _ ts _ _ _ _ _ _ => ts

def Field.source : Field → Option FieldSource
  | .mk _ _ _ _ _ s _ _ _ _ _ => s

def Field.references : Field → List FieldRef
  | .mk _ _ _ _ _ _ r _ _ _ _ => r

def Field.sub_fields : Field → Option (List Field)
  | .mk _ _ _ _ _ _ _ sf _ _ _ => sf

/-- Rust struct `FileObject` (core.rs lines 206-223), `content_url` optional as
in the validator revision. -/
structure FileObject where
  id : Text
  name : Text
  content_url : Option Text
  content_size : Option Text
  encoding_format : Text
  sha256 : Option String
deriving DecidableEq

/-- Rust struct `FileSet` (core.rs lines 233-247). -/
structure FileSet where
  id : Text
  sources : List Text
  encoding_format : Text
  includes : List Text
  excludes : List Text
deriving DecidableEq

/-- Rust enum `Resource` (core.rs lines 184-192). -/
inductive Resource where
  | FileObject (file_object : FileObject) : Resource
  | FileSet (file_set : FileSet) : Resource
deriving DecidableEq

/-- Rust: `impl fmt::Display for Resource` (core.rs lines 194-202). -/
def Resource.display : Resource → String
  | .FileObject _ => "fileObject"
  | .FileSet _ => "fileSet"

/-- Rust struct `Distribution` (core.rs lines 488-492). -/
structure Distribution where
  resource : Resource
deriving DecidableEq

/-- Rust struct `RecordSet` (core.rs lines 462-478). -/
structure RecordSet where
  id : Text
  kind : CrType
  keys : List Ref
  fields : List Field
  record_types : List DataType

/-- Rust struct `DataContext` (core.rs lines 570-577). -/
structure DataContext where
  id : Text
  type : Text
deriving DecidableEq

/-- Rust struct `DataTypeContext` (core.rs lines 587-594). -/
structure DataTypeContext where
  id : Text
  type : Text
deriving DecidableEq

/-- Rust struct `Context` (core.rs lines 502-533). -/
structure Context where
  language : Text
  vocab : Text
  sc : Text
  cr : Text
  dct : Text
  cite_as : Text
  column : Text
  conforms_to : Text
  data : DataContext
  data_type : DataTypeContext
deriving DecidableEq

/-- Rust struct `Metadata` (core.rs lines 609-633), `record_sets` optional as
the validator revision matches it. -/
structure Metadata where
  context : Context
  kind : CroissantType
  name : Text
  description : Text
  conforms_to : Text
  date_published : Option Text
  version : Text
  distribution : List Distribution
  record_sets : Option (List RecordSet)

/-! ## Validator (validate.rs) -/

/-- Rust enum `IssueSeverity` (validate.rs line 13). -/
inductive IssueSeverity where
  | Error : IssueSeverity
  | Warning : IssueSeverity
deriving DecidableEq

/-- Rust struct `ValidationIssue` (validate.rs line 20). -/
structure ValidationIssue where
  severity : IssueSeverity
  message : String
  context : Option String
deriving DecidableEq

/-- Rust `ValidationIssue::error` (validate.rs line 27). -/
def ValidationIssue.error (message : String) : ValidationIssue :=
  ⟨IssueSeverity.Error, message, none⟩

/-- Rust `ValidationIssue::warning` (validate.rs line 35). -/
def ValidationIssue.warning (message : String) : ValidationIssue :=
  ⟨IssueSeverity.Warning, message, none⟩

/-- Rust `ValidationIssue::with_context` (validate.rs line 43). -/
def ValidationIssue.with_context (issue : ValidationIssue) (context : String) :
    ValidationIssue :=
  { issue with context := some context }

/-- Rust `ValidationIssues::add_error_with_context` (validate.rs line 68);
the issue vector is modelled as a list and a push as an append. -/
def add_error_with_context (issues : List ValidationIssue) (message context : String) :
    List ValidationIssue :=
  issues ++ [(ValidationIssue.error message).with_context context]

/-- Rust `ValidationIssues::add_warning_with_context` (validate.rs line 77). -/
def add_warning_with_context (issues : List ValidationIssue) (message context : String) :
    List ValidationIssue :=
  issues ++ [(ValidationIssue.warning message).with_context context]

/-- Rust `c.is_ascii_hexdigit()`. -/
def isAsciiHexDigit (c : Char) : Bool :=
  c.isDigit || (decide ('a' ≤ c) && decide (c ≤ 'f')) || (decide ('A' ≤ c) && decide (c ≤ 'F'))

/-- Rust `validate_metadata_basic` (validate.rs lines 200-234). -/
def validate_metadata_basic (issues : List ValidationIssue) (metadata : Metadata) :
    List ValidationIssue :=
  let context := "Metadata(" ++ displayText metadata.name ++ ")"
  let issues :=
    if metadata.name = "" then
      add_error_with_context issues
        "Property \"https://schema.org/name\" is mandatory, but does not exist." context
    else issues
  let issues :=
    if metadata.kind ≠ CroissantType.Dataset then
      add_error_with_context issues
        "The current JSON-LD doesn\x27t extend https://schema.org/Dataset." context
    else issues
  let issues :=
    if metadata.conforms_to = "" then
      add_warning_with_context issues
        "Property \"http://purl.org/dc/terms/conformsTo\" is recommended, but does not exist."
        context
    else issues
  if metadata.description = "" then
    add_warning_with_context issues
      "Property \"https://schema.org/description\" is recommended, but does not exist." context
  else issues

/-- Rust `validate_distributions` (validate.rs lines 236-292). The loop body is
translated verbatim, the sha256 branch included: in the source the second
branch reads `file_object.sha256.is_some() || len != 64 || not all hex`, where
the two `unwrap()` calls are safe because that branch is only reached when
`sha256` is `Some` (here: the `some s` arm of the match). -/
def validate_distributions (issues : List ValidationIssue) (metadata : Metadata) :
    List ValidationIssue :=
  metadata.distribution.foldl
    (fun issues distribution =>
      let context := "Metadata(" ++ displayText metadata.name ++ ") > FileObject("
        ++ distribution.resource.display ++ ")"
      match distribution.resource with
      | Resource.FileObject file_object =>
        let issues :=
          if file_object.content_url.isNone then
            add_error_with_context issues
              "Property \"https://schema.org/contentUrl\" is mandatory, but does not exist."
              context
          else issues
        let issues :=
          if file_object.encoding_format = "" then
            add_error_with_context issues
              "Property \"https://schema.org/encodingFormat\" is mandatory, but does not exist."
              context
          else issues
        match file_object.sha256 with
        | none =>
          add_warning_with_context issues
            "Property \"https://schema.org/sha256\" is recommended for file integrity verification."
            context
        | some s =>
          if file_object.sha256.isSome || s.length != 64
              || !(s.data.all isAsciiHexDigit) then
            add_error_with_context issues
              "Invalid SHA256 hash format. Expected 64 hexadecimal characters." context
          else issues
      | Resource.FileSet file_set =>
        if file_set.encoding_format = "" then
          add_error_with_context issues
            "Property \"https://schema.org/encodingFormat\" is mandatory, but does not exist."
            context
        else issues)
    issues

/-- Rust `validate_fields` (validate.rs lines 330-388). -/
def validate_fields (issues : List ValidationIssue) (metadata : Metadata)
    (record_set : RecordSet) : List ValidationIssue :=
  record_set.fields.foldl
    (fun issues field =>
      let context := "Metadata(" ++ displayText metadata.name ++ ") > RecordSet("
        ++ record_set.kind.display ++ ") > Field(" ++ displayText field.name ++ ")"
      let issues :=
        if field.name = "" then
          add_error_with_context issues
            "Property \"https://schema.org/name\" is mandatory, but does not exist." context
        else issues
      let issues :=
        if field.kind ≠ CrType.Field then
          add_error_with_context issues
            ("\"" ++ displayText field.name
              ++ "\" should have an attribute \"@type\": \"http://mlcommons.org/croissant/Field\". Got "
              ++ field.kind.display ++ " instead.")
            context
        else issues
      match field.source with
      | some source =>
        match source.extract with
        | some extract =>
          let is_empty :=
            match extract with
            | Extract.Column name => name == ""
            | _ => false
          let is_file_object_empty :=
            match source.source with
            | SourceRef.FileObject file_object => file_object.id == ""
            | _ => false
          if is_empty || is_file_object_empty then
            add_error_with_context issues
              ("Node \"" ++ displayText field.id
                ++ "\" is a field and has no source. Please, use http://mlcommons.org/croissant/source to specify the source.")
              context
          else issues
        | none => issues
      | none => issues)
    issues

/-- Rust `validate_record_sets` (validate.rs lines 294-328). -/
def validate_record_sets (issues : List ValidationIssue) (metadata : Metadata) :
    List ValidationIssue :=
  match metadata.record_sets with
  | none => issues
  | some record_sets =>
    record_sets.foldl
      (fun issues record_set =>
        let context := "Metadata(" ++ displayText metadata.name ++ ") > RecordSet("
          ++ record_set.kind.display ++ ")"
        let issues :=
          if record_set.id = "" then
            add_error_with_context issues
              "Property \"https://schema.org/name\" is mandatory, but does not exist." context
          else issues
        let issues :=
          if record_set.kind ≠ CrType.RecordSet then
            add_error_with_context issues
              ("\"" ++ displayText record_set.id
                ++ "\" should have an attribute \"@type\": \"http://mlcommons.org/croissant/RecordSet\". Got "
                ++ record_set.kind.display ++ " instead.")
              context
          else issues
        validate_fields issues metadata record_set)
      issues

/-- The id a distribution contributes to the reference set
(validate.rs lines 392-399). -/
def Distribution.resource_id (dist : Distribution) : Text :=
  match dist.resource with
  | Resource.FileObject file_object => file_object.id
  | Resource.FileSet file_set => file_set.id

/-- Rust `validate_references` (validate.rs lines 390-431). The `HashSet` of
distribution ids is modelled as the list of ids; only membership is used. -/
def validate_references (issues : List ValidationIssue) (metadata : Metadata) :
    List ValidationIssue :=
  let distribution_ids := metadata.distribution.map Distribution.resource_id
  match metadata.record_sets with
  | none => issues
  | some record_sets =>
    record_sets.foldl
      (fun issues record_set =>
        record_set.fields.foldl
          (fun issues field =>
            match field.source with
            | some source =>
              let file_object_id :=
                match source.source with
                | SourceRef.FileObject file_object => file_object.id
                | SourceRef.RecordSet record_set => record_set.id
                | SourceRef.FileSet file_set => file_set.id
              if file_object_id ≠ "" ∧ file_object_id ∉ distribution_ids then
                let context := "Metadata(" ++ displayText metadata.name ++ ") > RecordSet("
                  ++ record_set.kind.display ++ ") > Field(" ++ displayText field.name ++ ")"
                add_error_with_context issues
                  ("Field references non-existent file object: " ++ displayText file_object_id)
                  context
              else issues
            | none => issues)
          issues)
      issues

/-- Rust `validate_metadata` (validate.rs lines 189-198): a fresh issue list is
threaded through the four passes in order. -/
def validate_metadata (metadata : Metadata) : List ValidationIssue :=
  let issues : List ValidationIssue := []
  let issues := validate_metadata_basic issues metadata
  let issues := validate_distributions issues metadata
  let issues := validate_record_sets issues metadata
  validate_references issues metadata

/-! ## Wire codec for `DataType` and the one-or-many rule (core.rs)

The decoders are the shallow embedding of the serde-derived code. `DataType`
carries `serde(untagged)`: the derived deserializer buffers the value and tries
the variants in declared order, accepting the first that deserializes from the
raw value. For an untagged enum the variant-level `serde(rename = ...)`
attributes are inert — there is no tag to rename — and a unit variant is
deserialized through serde `UntaggedUnitVisitor`, which accepts only JSON
null. A newtype variant deserializes its payload from the raw value:
`BoundingBox` via the plain enum `BoundingBoxFormat` (a plain serde enum, so
its variant names as strings), `CustomIri` via `Text`, a newtype over a
string, so any JSON string. Serialization of an untagged enum emits the
content only: `serialize_unit()` (JSON null) for unit variants, the payload
for newtype variants. -/

/-- Decoder for `BoundingBoxFormat` (plain serde enum: the variant name as a
JSON string). -/
def decode_bounding_box_format : Json → Option BoundingBoxFormat
  | .str "CenterXywh" => some BoundingBoxFormat.CenterXywh
  | .str "Xywh" => some BoundingBoxFormat.Xywh
  | .str "Xyxy" => some BoundingBoxFormat.Xyxy
  | _ => none

/-- Encoder for `BoundingBoxFormat`. -/
def encode_bounding_box_format : BoundingBoxFormat → Json
  | .CenterXywh => .str "CenterXywh"
  | .Xywh => .str "Xywh"
  | .Xyxy => .str "Xyxy"

/-- The serde-derived deserializer of the untagged enum `DataType`
(core.rs lines 76-105): variants tried in declared order — the unit variants
`Enumeration`, `Boolean`, ..., `ImageObject` (each accepting only null, so
null resolves to the first, `Enumeration`), then `BoundingBox`, then the unit
variants `Split` and `Label` (null again, unreachable), then `CustomIri`. -/
def decode_data_type (value : Json) : Option DataType :=
  match value with
  | .null => some DataType.Enumeration
  | _ =>
    match decode_bounding_box_format value with
    | some format => some (DataType.BoundingBox format)
    | none =>
      match value with
      | .str s => some (DataType.CustomIri s)
      | _ => none

/-- The serde-derived serializer of the untagged enum `DataType`: unit
variants serialize as unit (JSON null), newtype variants as their payload. -/
def encode_data_type : DataType → Json
  | .Enumeration => .null
  | .Boolean => .null
  | .Integer => .null
  | .Float => .null
  | .Text => .null
  | .Date => .null
  | .DateTime => .null
  | .Url => .null
  | .ImageObject => .null
  | .BoundingBox format => encode_bounding_box_format format
  | .Split => .null
  | .Label => .null
  | .CustomIri s => .str s

/-- Rust `one_or_many` (core.rs lines 11-22): if the buffered value is an
array, deserialize it element-wise as a vector; otherwise deserialize the lone
value and wrap it in a one-element vector. -/
def one_or_many (d : Json → Option α) (value : Json) : Option (List α) :=
  if value.is_array then
    match value with
    | .arr elems => elems.mapM d
    | _ => none
  else
    (d value).map (fun t => [t])

/-! ## Scalar type inference (core.rs, `impl From<&String> for DataType`)

The Rust code trims the sample and then tries, in order: `str::parse::<i64>`,
`str::parse::<f64>`, ASCII-case-insensitive equality with true/false,
`chrono::NaiveDate::parse_from_str(trimmed, "%Y-%m-%d")`, and
`chrono::DateTime::parse_from_rfc3339`. Each outside parsing routine is embedded below
following its documented grammar and the chrono 0.4 parsing code. -/

/-- Rust `char::is_whitespace` (the Unicode White_Space property), used by
`str::trim` and by chrono when it skips whitespace before a numeric item. -/
def isRustWhitespace (c : Char) : Bool :=
  let n := c.toNat
  n == 0x9 || n == 0xA || n == 0xB || n == 0xC || n == 0xD || n == 0x20
    || n == 0x85 || n == 0xA0 || n == 0x1680
    || (decide (0x2000 ≤ n) && decide (n ≤ 0x200A))
    || n == 0x2028 || n == 0x2029 || n == 0x202F || n == 0x205F || n == 0x3000

/-- Rust `str::trim`: drop White_Space characters from both ends. -/
def trimChars (cs : List Char) : List Char :=
  ((cs.dropWhile isRustWhitespace).reverse.dropWhile isRustWhitespace).reverse

/-- Rust `str::trim` lifted to `String`. -/
def rust_trim (s : String) : String :=
  String.mk (trimChars s.data)

/-- Numeric value of a list of ASCII digits, most significant first. -/
def digitsToNat (ds : List Char) : Nat :=
  ds.foldl (fun acc c => 10 * acc + (c.toNat - 48)) 0

/-- Rust `str::parse::<i64>`: an optional sign, then one or more ASCII digits,
nothing else, and the value must fit in a signed 64-bit integer. -/
def parses_as_i64 (cs : List Char) : Bool :=
  let signed : Bool × List Char :=
    match cs with
    | '+' :: r => (false, r)
    | '-' :: r => (true, r)
    | r => (false, r)
  let neg := signed.1
  let rest := signed.2
  !rest.isEmpty && rest.all Char.isDigit
    && (if neg then digitsToNat rest ≤ 2 ^ 63 else digitsToNat rest ≤ 2 ^ 63 - 1)

/-- Rust `eq_ignore_ascii_case` on strings: equality after ASCII lowercasing. -/
def eqIgnoreAsciiCase (a b : List Char) : Bool :=
  a.map Char.toLower == b.map Char.toLower

/-- Exponent suffix of the Rust `f64` grammar: either nothing is left, or
an `e`/`E`, an optional sign, and one or more digits. -/
def f64ExpOk : List Char → Bool
  | [] => true
  | c :: r =>
    (c == 'e' || c == 'E')
      && (let r2 : List Char :=
            match r with
            | '+' :: t => t
            | '-' :: t => t
            | t => t
          !r2.isEmpty && r2.all Char.isDigit)

/-- Rust `str::parse::<f64>`, which never fails on overflow. Documented
grammar: an optional sign, then case-insensitive inf, infinity or nan, or a
number `Digit+ | Digit+ . Digit* | Digit* . Digit+` with an optional exponent
`eE Sign? Digit+`. -/
def parses_as_f64 (cs : List Char) : Bool :=
  let rest : List Char :=
    match cs with
    | '+' :: r => r
    | '-' :: r => r
    | r => r
  if eqIgnoreAsciiCase rest "inf".data || eqIgnoreAsciiCase rest "infinity".data
      || eqIgnoreAsciiCase rest "nan".data then
    true
  else
    let ds1 := rest.takeWhile Char.isDigit
    let r1 := rest.dropWhile Char.isDigit
    match r1 with
    | '.' :: r2 =>
      let ds2 := r2.takeWhile Char.isDigit
      let r3 := r2.dropWhile Char.isDigit
      (!ds1.isEmpty || !ds2.isEmpty) && f64ExpOk r3
    | _ => !ds1.isEmpty && f64ExpOk r1

/-- Proleptic Gregorian leap year, as chrono computes it. -/
def isLeapYear (y : Int) : Bool :=
  y % 4 == 0 && (y % 100 != 0 || y % 400 == 0)

/-- Days in a month of the proleptic Gregorian calendar. -/
def daysInMonth (y : Int) (m : Nat) : Nat :=
  match m with
  | 1 => 31
  | 2 => if isLeapYear y then 29 else 28
  | 3 => 31
  | 4 => 30
  | 5 => 31
  | 6 => 30
  | 7 => 31
  | 8 => 31
  | 9 => 30
  | 10 => 31
  | 11 => 30
  | 12 => 31
  | _ => 0

/-- Calendar validity as checked by chrono `Parsed::to_naive_date`: the year
must lie in the `NaiveDate` range and the month/day must denote a real day. -/
def validYmd (y : Int) (m d : Nat) : Bool :=
  decide (-262144 ≤ y) && decide (y ≤ 262143)
    && decide (1 ≤ m) && decide (m ≤ 12)
    && decide (1 ≤ d) && decide (d ≤ daysInMonth y m)

/-- chrono `scan::number` with a maximum width: consume at most `width`
leading ASCII digits. -/
def takeDigitsUpTo : Nat → List Char → (List Char × List Char)
  | 0, l => ([], l)
  | _ + 1, [] => ([], [])
  | n + 1, c :: r =>
    if c.isDigit then
      let p := takeDigitsUpTo n r
      (c :: p.1, p.2)
    else ([], c :: r)

/-- chrono numeric item with no sign (`scan::number(s, 1, width)`), after the
whitespace skip chrono performs before every numeric item. -/
def ymdNumericUnsigned (width : Nat) (cs : List Char) : Option (Nat × List Char) :=
  let cs := cs.dropWhile isRustWhitespace
  let p := takeDigitsUpTo width cs
  if p.1.isEmpty then none else some (digitsToNat p.1, p.2)

/-- chrono signed `Year` item: skip whitespace; with an explicit sign the
digit count is unbounded but the magnitude must fit in an i64
(`scan::number` overflow is an error); without a sign at most 4 digits are
consumed (the width of `%Y`). -/
def ymdYear (cs : List Char) : Option (Int × List Char) :=
  let cs := cs.dropWhile isRustWhitespace
  match cs with
  | '-' :: r =>
    let ds := r.takeWhile Char.isDigit
    let rest := r.dropWhile Char.isDigit
    if ds.isEmpty || decide (digitsToNat ds > 2 ^ 63 - 1) then none
    else some (-(digitsToNat ds : Int), rest)
  | '+' :: r =>
    let ds := r.takeWhile Char.isDigit
    let rest := r.dropWhile Char.isDigit
    if ds.isEmpty || decide (digitsToNat ds > 2 ^ 63 - 1) then none
    else some ((digitsToNat ds : Int), rest)
  | _ =>
    let p := takeDigitsUpTo 4 cs
    if p.1.isEmpty then none else some ((digitsToNat p.1 : Int), p.2)

/-- chrono `NaiveDate::parse_from_str(s, "%Y-%m-%d")`: the year item, a
literal dash, the month item (width 2), a literal dash, the day item
(width 2); the input must be fully consumed and the resulting date valid. -/
def is_ymd_date (cs : List Char) : Bool :=
  match ymdYear cs with
  | none => false
  | some (y, r1) =>
    match r1 with
    | '-' :: r2 =>
      match ymdNumericUnsigned 2 r2 with
      | none => false
      | some (m, r3) =>
        match r3 with
        | '-' :: r4 =>
          match ymdNumericUnsigned 2 r4 with
          | none => false
          | some (d, r5) => r5.isEmpty && validYmd y m d
        | _ => false
    | _ => false

/-- Exactly `n` leading ASCII digits, as chrono `scan::number(s, n, n)`
consumes for the fixed-width RFC 3339 fields. -/
def scanExactDigits : Nat → List Char → Option (Nat × List Char)
  | 0, cs => some (0, cs)
  | n + 1, c :: r =>
    if c.isDigit then
      match scanExactDigits n r with
      | some (v, rest) => some ((c.toNat - 48) * 10 ^ n + v, rest)
      | none => none
    else none
  | _ + 1, [] => none

/-- One expected literal character. -/
def expectChar (c : Char) : List Char → Option (List Char)
  | x :: r => if x == c then some r else none
  | [] => none

/-- chrono timezone offset of an RFC 3339 timestamp: `Z`/`z`, or a sign, two
hour digits, a colon and two minute digits, bounded as `FixedOffset` requires
(strictly less than one day). -/
def rfc3339Offset (cs : List Char) : Option (List Char) :=
  match cs with
  | 'Z' :: r => some r
  | 'z' :: r => some r
  | c :: r =>
    if c == '+' || c == '-' then
      match scanExactDigits 2 r with
      | some (oh, r1) =>
        match expectChar ':' r1 with
        | some r2 =>
          match scanExactDigits 2 r2 with
          | some (om, r3) =>
            if decide (oh * 3600 + om * 60 < 86400) then some r3 else none
          | none => none
        | none => none
      | none => none
    else none
  | [] => none

/-- chrono `DateTime::parse_from_rfc3339`: date, `T`/`t`/space separator,
time, optional fraction (a dot must be followed by at least one digit), and a
timezone offset; nothing may remain and the fields must denote a real instant
(leap second 60 allowed). -/
def is_rfc3339 (cs : List Char) : Bool :=
  Option.isSome (do
    let (y, r1) ← scanExactDigits 4 cs
    let r2 ← expectChar '-' r1
    let (mo, r3) ← scanExactDigits 2 r2
    let r4 ← expectChar '-' r3
    let (d, r5) ← scanExactDigits 2 r4
    let r6 ← match r5 with
      | c :: r => if c == 'T' || c == 't' || c == ' ' then some r else none
      | [] => none
    let (h, r7) ← scanExactDigits 2 r6
    let r8 ← expectChar ':' r7
    let (mi, r9) ← scanExactDigits 2 r8
    let r10 ← expectChar ':' r9
    let (se, r11) ← scanExactDigits 2 r10
    let r12 ← match r11 with
      | '.' :: rest =>
        if (rest.takeWhile Char.isDigit).isEmpty then none
        else some (rest.dropWhile Char.isDigit)
      | other => some other
    let r13 ← rfc3339Offset r12
    if r13.isEmpty && validYmd (y : Int) mo d
        && decide (h ≤ 23) && decide (mi ≤ 59) && decide (se ≤ 60) then
      some ()
    else none)

/-- Rust `impl From<&String> for DataType` (core.rs lines 128-160): trim, then
try integer, float, boolean, calendar date, RFC 3339 timestamp (also mapped to
`Date`), and fall back to `Text`. -/
def DataType.from_string (value : String) : DataType :=
  let trimmed := trimChars value.data
  if parses_as_i64 trimmed then DataType.Integer
  else if parses_as_f64 trimmed then DataType.Float
  else if eqIgnoreAsciiCase trimmed "true".data || eqIgnoreAsciiCase trimmed "false".data then
    DataType.Boolean
  else if is_ymd_date trimmed then DataType.Date
  else if is_rfc3339 trimmed then DataType.Date
  else DataType.Text

/-! ## Generator (generate.rs) -/

/-- Rust `default_context` (core.rs lines 541-566). Modelled from the spec:
the builder-based construction in src omits the `dct` field, and the builder
implementation that makes this construction succeed is not part of src; per
spec section 2/9 the builders are required-field-checked constructors, so the
construction is modelled as a total record constructor and the one field the
source never sets (`dct`) is given the empty string. -/
def default_context : Context :=
  { language := "en"
    vocab := "https://schema.org/"
    sc := "https://schema.org/"
    cr := "http://purl.org/dc/terms/"
    dct := ""
    cite_as := "cr:citeAs"
    column := "cr:column"
    conforms_to := "dct:conforms_to"
    data := { id := "cr:data", type := "@json" }
    data_type := { id := "cr:DataType", type := "@vocal" } }

/-- Rust `generate_metadata_from_csv` (generate.rs lines 12-117), its pure
core. The file-system collaborators are hoisted to parameters, as spec
section 1 scopes them out: `file_name`/`stem` stand for the file name
and stem of the path, `file_size` for the metadata length, `file_sha256` for
`calculate_sha256`, `(headers, first_row)` for `get_csv_columns`, and `today`
for the formatted current date. Modelled from the spec: the derive_builder
implementations are not under src; builders are modelled as total record
constructors whose never-set optional fields are `none` and never-set list
fields are empty (spec section 9 describes them as required-field-checked
constructors; the metadata `conforms_to` text, never set by the generator, is
modelled as the empty string). -/
def generate_metadata_from_csv (file_name stem : String) (file_size : Nat)
    (file_sha256 : String) (today : String) (headers : List String)
    (first_row : Option (List String)) : Metadata :=
  let fields := headers.enum.map (fun p =>
    let i := p.1
    let header := p.2
    let data_type : DataType :=
      match first_row with
      | some row =>
        if h : i < row.length then DataType.from_string (row.get ⟨i, h⟩)
        else DataType.Url
      | none => DataType.Url
    Field.mk ("main/" ++ header) CrType.Field header ("Field for " ++ header)
      [data_type]
      (some { source := SourceRef.FileObject ⟨file_name⟩
              extract := some (Extract.Column header)
              transform := none
              format := none })
      [] none none none none)
  { context := default_context
    kind := CroissantType.Dataset
    name := stem ++ "_dataset"
    description := "Dataset created from " ++ file_name
    conforms_to := ""
    date_published := some today
    version := "1.0.0"
    distribution :=
      [⟨Resource.FileObject
          { id := file_name
            name := file_name
            content_url := none
            content_size := some (toString file_size ++ " B")
            encoding_format := "text/csv"
            sha256 := some file_sha256 }⟩]
    record_sets :=
      some [{ id := "main"
              kind := CrType.RecordSet
              keys := [⟨"main"⟩]
              fields := fields
              record_types := [] }] }

/-- The per-field declared type lists of every record set of a tree, used to
state the generation claims. -/
def recordSetFieldTypes (m : Metadata) : List (List DataType) :=
  match m.record_sets with
  | some record_sets => record_sets.flatMap (fun rs => rs.fields.map Field.data_types)
  | none => []

/-! ## Concrete inputs used by counterexamples and failing-input evaluations -/

/-- A 64-character hexadecimal digest. -/
def sha64 : String :=
  "aaaaaaaaaaaaaaaaaaaaaaaaaaaaaaaaaaaaaaaaaaaaaaaaaaaaaaaaaaaaaaaa"

/-- The well-formedness of a digest as both the spec and the garde pattern in
core.rs line 221 state it: exactly 64 hexadecimal characters. -/
def isValidSha256 (s : String) : Bool :=
  s.length == 64 && s.data.all isAsciiHexDigit

/-- A trivially well-formed context value for concrete trees. -/
def ctx0 : Context := default_context

/-- A file object distribution carrying a perfectly valid 64-hex digest, with
every mandatory property present. -/
def fileObjectValidSha : FileObject :=
  { id := "data.csv"
    name := "data.csv"
    content_url := some "http://example.org/data.csv"
    content_size := none
    encoding_format := "text/csv"
    sha256 := some sha64 }

/-- Metadata whose only distribution is `fileObjectValidSha`. -/
def metadataValidSha : Metadata :=
  { context := ctx0
    kind := CroissantType.Dataset
    name := "n"
    description := "d"
    conforms_to := "c"
    date_published := none
    version := "1.0.0"
    distribution := [⟨Resource.FileObject fileObjectValidSha⟩]
    record_sets := none }

/-- The same metadata with the digest absent. -/
def metadataNoSha : Metadata :=
  { metadataValidSha with
    distribution := [⟨Resource.FileObject { fileObjectValidSha with sha256 := none }⟩] }

/-- The same metadata with a 63-character digest. -/
def metadataShortSha : Metadata :=
  { metadataValidSha with
    distribution :=
      [⟨Resource.FileObject
          { fileObjectValidSha with
            sha256 := some
              "aaaaaaaaaaaaaaaaaaaaaaaaaaaaaaaaaaaaaaaaaaaaaaaaaaaaaaaaaaaaaaa" }⟩] }

/-- A field whose source is a record-set reference to the id of the record set
that contains it, and nothing else that could raise an issue. -/
def fieldSelfRecordSetRef : Field :=
  Field.mk "f" CrType.Field "fn" "fd" []
    (some { source := SourceRef.RecordSet ⟨"rs"⟩
            extract := none
            transform := none
            format := none })
    [] none none none none

/-- A dataset with no distributions and one record set `rs` whose single field
is sourced from the record set itself. Every id the claim needs resolved as a
record-set id is present among the record-set ids. -/
def metadataRecordSetRef : Metadata :=
  { context := ctx0
    kind := CroissantType.Dataset
    name := "n"
    description := "d"
    conforms_to := "c"
    date_published := none
    version := "1.0.0"
    distribution := []
    record_sets :=
      some [{ id := "rs"
              kind := CrType.RecordSet
              keys := []
              fields := [fieldSelfRecordSetRef]
              record_types := [] }] }

/-- A field that declares a source whose file-set reference id is empty while
its extract clause names a non-empty column. -/
def fieldEmptyFileSetRef : Field :=
  Field.mk "f" CrType.Field "fn" "fd" []
    (some { source := SourceRef.FileSet ⟨""⟩
            extract := some (Extract.Column "col")
            transform := none
            format := none })
    [] none none none none

/-- A dataset containing `fieldEmptyFileSetRef` inside one well-formed record
set: the referenced-resource id of the field is empty, yet nothing else in the
tree can raise an issue. -/
def metadataEmptyFileSetRef : Metadata :=
  { context := ctx0
    kind := CroissantType.Dataset
    name := "n"
    description := "d"
    conforms_to := "c"
    date_published := none
    version := "1.0.0"
    distribution := []
    record_sets :=
      some [{ id := "rs"
              kind := CrType.RecordSet
              keys := []
              fields := [fieldEmptyFileSetRef]
              record_types := [] }] }

/-! ## Helper lemmas: issue accumulation -/

/-- A fold whose step only appends behind the accumulator can be started on
any already accumulated list. -/
theorem foldl_shift {I α : Type} (g : List I → α → List I)
    (hg : ∀ acc x, g acc x = acc ++ g [] x) :
    ∀ (l : List α) (acc : List I), l.foldl g acc = acc ++ l.foldl g [] := by
  intro l
  induction l with
  | nil => intro acc; simp
  | cons x t ih =>
    intro acc
    simp only [List.foldl_cons]
    rw [ih (g acc x), ih (g [] x), hg acc x, List.append_assoc]

/-- A fold whose step appends a list computed from the element alone is the
concatenation of those lists. -/
theorem foldl_flatMap {I α : Type} (g : List I → α → List I) (f : α → List I)
    (hg : ∀ acc x, g acc x = acc ++ f x) :
    ∀ (l : List α) (acc : List I), l.foldl g acc = acc ++ l.flatMap f := by
  intro l
  induction l with
  | nil => intro acc; simp
  | cons x t ih =>
    intro acc
    simp only [List.foldl_cons, List.flatMap_cons]
    rw [hg acc x, ih (acc ++ f x), List.append_assoc]

/-- The basic pass only appends behind the incoming issue list. -/
theorem validate_metadata_basic_shift (issues : List ValidationIssue) (m : Metadata) :
    validate_metadata_basic issues m = issues ++ validate_metadata_basic [] m := by
  simp only [validate_metadata_basic, add_error_with_context, add_warning_with_context]
  split_ifs <;> simp

/-- The distributions pass only appends behind the incoming issue list. -/
theorem validate_distributions_shift (issues : List ValidationIssue) (m : Metadata) :
    validate_distributions issues m = issues ++ validate_distributions [] m := by
  simp only [validate_distributions]
  apply foldl_shift
  intro acc d
  rcases d with ⟨res⟩
  cases res with
  | FileObject fo =>
    rcases fo with ⟨i, nm, cu, cs, ef, sha⟩
    cases sha <;>
      · simp only [add_error_with_context, add_warning_with_context]
        split_ifs <;> simp
  | FileSet fs =>
    simp only [add_error_with_context, add_warning_with_context]
    split_ifs <;> simp

/-- The field loop only appends behind the incoming issue list. -/
theorem validate_fields_shift (issues : List ValidationIssue) (m : Metadata)
    (rs : RecordSet) :
    validate_fields issues m rs = issues ++ validate_fields [] m rs := by
  simp only [validate_fields]
  apply foldl_shift
  intro acc f
  rcases f with ⟨fid, fkind, fname, fdesc, fdts, fsrc, frefs, fsub, fpar, frep, feq⟩
  cases fsrc with
  | none =>
    simp only [Field.name, Field.kind, Field.id, Field.source,
      add_error_with_context, add_warning_with_context]
    split_ifs <;> simp
  | some src =>
    rcases src with ⟨ss, sex, str2, sfmt⟩
    cases sex <;>
      · simp only [Field.name, Field.kind, Field.id, Field.source,
          add_error_with_context, add_warning_with_context]
        split_ifs <;> simp

/-- The record-set pass only appends behind the incoming issue list. -/
theorem validate_record_sets_shift (issues : List ValidationIssue) (m : Metadata) :
    validate_record_sets issues m = issues ++ validate_record_sets [] m := by
  simp only [validate_record_sets]
  cases m.record_sets with
  | none => simp
  | some rss =>
    apply foldl_shift
    intro acc rs
    rw [validate_fields_shift]
    conv_rhs => rw [validate_fields_shift]
    simp only [add_error_with_context, add_warning_with_context]
    split_ifs <;> simp

/-- The reference pass only appends behind the incoming issue list. -/
theorem validate_references_shift (issues : List ValidationIssue) (m : Metadata) :
    validate_references issues m = issues ++ validate_references [] m := by
  simp only [validate_references]
  cases m.record_sets with
  | none => simp
  | some rss =>
    apply foldl_shift
    intro acc rs
    apply foldl_shift
    intro acc2 f
    rcases f with ⟨fid, fkind, fname, fdesc, fdts, fsrc, frefs, fsub, fpar, frep, feq⟩
    cases fsrc with
    | none => simp [Field.source]
    | some src =>
      simp only [Field.source, Field.name, add_error_with_context]
      split_ifs <;> simp

/-! ## Claim theorems -/

/-- C9: `validate_metadata` is total over every `Metadata` tree (it is a plain
Lean function, hence never raises and never mutates its argument; the digest
branch of the distributions pass destructures `sha256 = some s` before using
the digest, which is how the source unwraps are reached only when a digest is
present), and it runs all four passes to completion, producing exactly the
concatenation of the issues of the four passes in order — collect-all, never
fail-fast. -/
theorem claim_C9 (m : Metadata) :
    validate_metadata m =
      validate_metadata_basic [] m ++ validate_distributions [] m
        ++ validate_record_sets [] m ++ validate_references [] m := by
  simp only [validate_metadata]
  rw [validate_references_shift, validate_record_sets_shift, validate_distributions_shift]

/-- C4 (amended): the reference pass resolves every field source id against
the distribution ids alone. A field whose source resolves to a non-empty id
with no matching distribution produces exactly one Error issue naming that id,
and a field whose source id is present among the distribution ids produces
zero referential issues; but a record-set reference is given no special
treatment — the enclosing dataset record-set ids are not accepted as targets
(the counterexample shows a field sourced from its own record set id being
reported as dangling). -/
theorem claim_C4 (issues : List ValidationIssue) (m : Metadata) :
    validate_references issues m =
      issues ++
        (match m.record_sets with
         | none => []
         | some record_sets =>
           record_sets.flatMap (fun record_set =>
             record_set.fields.flatMap (fun field =>
               match field.source with
               | some source =>
                 let file_object_id :=
                   match source.source with
                   | SourceRef.FileObject file_object => file_object.id
                   | SourceRef.RecordSet record_set => record_set.id
                   | SourceRef.FileSet file_set => file_set.id
                 if file_object_id ≠ ""
                     ∧ file_object_id ∉ m.distribution.map Distribution.resource_id then
                   [(ValidationIssue.error
                       ("Field references non-existent file object: "
                         ++ displayText file_object_id)).with_context
                     ("Metadata(" ++ displayText m.name ++ ") > RecordSet("
                       ++ record_set.kind.display ++ ") > Field("
                       ++ displayText field.name ++ ")")]
                 else []
               | none => []))) := by
  simp only [validate_references]
  cases m.record_sets with
  | none => simp
  | some rss =>
    apply foldl_flatMap
    intro acc rs
    apply foldl_flatMap
    intro acc2 f
    rcases f with ⟨fid, fkind, fname, fdesc, fdts, fsrc, frefs, fsub, fpar, frep, feq⟩
    cases fsrc with
    | none => simp [Field.source]
    | some src =>
      simp only [Field.source, Field.name, add_error_with_context]
      split_ifs <;> simp

/-- C4 counterexample: in `metadataRecordSetRef` the only field is sourced
from a record-set reference whose id "rs" is the id of the enclosing record
set, yet the reference pass reports it as a dangling reference — the original
claim promised zero referential issues here. -/
theorem claim_C4_counterexample :
    validate_references [] metadataRecordSetRef =
      [⟨IssueSeverity.Error,
        "Field references non-existent file object: id:rs",
        some "Metadata(id:n) > RecordSet(cr:RecordSet) > Field(id:fn)"⟩] := by
  decide

/-- C7 (amended): the record-set/field pass emits an error for each record set
or field whose kind differs from its expected discriminant, and it emits the
empty-extraction-target error for a field exactly when the field declares a
source together with an extract clause and either the extract is a column
with an empty name or the source reference is a file-object reference with an
empty id. Empty file-set or record-set reference ids, and fields whose source
has no extract clause, are not flagged by this pass. -/
theorem claim_C7 (issues : List ValidationIssue) (m : Metadata) :
    validate_record_sets issues m =
      issues ++
        (match m.record_sets with
         | none => []
         | some record_sets =>
           record_sets.flatMap (fun record_set =>
             (if record_set.id = "" then
                [(ValidationIssue.error
                    "Property \"https://schema.org/name\" is mandatory, but does not exist.").with_context
                  ("Metadata(" ++ displayText m.name ++ ") > RecordSet("
                    ++ record_set.kind.display ++ ")")]
              else [])
             ++ (if record_set.kind ≠ CrType.RecordSet then
                  [(ValidationIssue.error
                      ("\"" ++ displayText record_set.id
                        ++ "\" should have an attribute \"@type\": \"http://mlcommons.org/croissant/RecordSet\". Got "
                        ++ record_set.kind.display ++ " instead.")).with_context
                    ("Metadata(" ++ displayText m.name ++ ") > RecordSet("
                      ++ record_set.kind.display ++ ")")]
                else [])
             ++ record_set.fields.flatMap (fun field =>
                  (if field.name = "" then
                     [(ValidationIssue.error
                         "Property \"https://schema.org/name\" is mandatory, but does not exist.").with_context
                       ("Metadata(" ++ displayText m.name ++ ") > RecordSet("
                         ++ record_set.kind.display ++ ") > Field("
                         ++ displayText field.name ++ ")")]
                   else [])
                  ++ (if field.kind ≠ CrType.Field then
                       [(ValidationIssue.error
                           ("\"" ++ displayText field.name
                             ++ "\" should have an attribute \"@type\": \"http://mlcommons.org/croissant/Field\". Got "
                             ++ field.kind.display ++ " instead.")).with_context
                         ("Metadata(" ++ displayText m.name ++ ") > RecordSet("
                           ++ record_set.kind.display ++ ") > Field("
                           ++ displayText field.name ++ ")")]
                     else [])
                  ++ (match field.source with
                      | some source =>
                        match source.extract with
                        | some extract =>
                          if (match extract with
                              | Extract.Column name => name == ""
                              | _ => false)
                              || (match source.source with
                                  | SourceRef.FileObject file_object => file_object.id == ""
                                  | _ => false) then
                            [(ValidationIssue.error
                                ("Node \"" ++ displayText field.id
                                  ++ "\" is a field and has no source. Please, use http://mlcommons.org/croissant/source to specify the source.")).with_context
                              ("Metadata(" ++ displayText m.name ++ ") > RecordSet("
                                ++ record_set.kind.display ++ ") > Field("
                                ++ displayText field.name ++ ")")]
                          else []
                        | none => []
                      | none => [])))) := by
  simp only [validate_record_sets]
  cases m.record_sets with
  | none => simp
  | some rss =>
    apply foldl_flatMap
    intro acc rs
    have hfields : ∀ (acc2 : List ValidationIssue),
        validate_fields acc2 m rs =
          acc2 ++ rs.fields.flatMap (fun field =>
            (if field.name = "" then
               [(ValidationIssue.error
                   "Property \"https://schema.org/name\" is mandatory, but does not exist.").with_context
                 ("Metadata(" ++ displayText m.name ++ ") > RecordSet("
                   ++ rs.kind.display ++ ") > Field(" ++ displayText field.name ++ ")")]
             else [])
            ++ (if field.kind ≠ CrType.Field then
                 [(ValidationIssue.error
                     ("\"" ++ displayText field.name
                       ++ "\" should have an attribute \"@type\": \"http://mlcommons.org/croissant/Field\". Got "
                       ++ field.kind.display ++ " instead.")).with_context
                   ("Metadata(" ++ displayText m.name ++ ") > RecordSet("
                     ++ rs.kind.display ++ ") > Field(" ++ displayText field.name ++ ")")]
               else [])
            ++ (match field.source with
                | some source =>
                  match source.extract with
                  | some extract =>
                    if (match extract with
                        | Extract.Column name => name == ""
                        | _ => false)
                        || (match source.source with
                            | SourceRef.FileObject file_object => file_object.id == ""
                            | _ => false) then
                      [(ValidationIssue.error
                          ("Node \"" ++ displayText field.id
                            ++ "\" is a field and has no source. Please, use http://mlcommons.org/croissant/source to specify the source.")).with_context
                        ("Metadata(" ++ displayText m.name ++ ") > RecordSet("
                          ++ rs.kind.display ++ ") > Field(" ++ displayText field.name ++ ")")]
                    else []
                  | none => []
                | none => [])) := by
      intro acc2
      simp only [validate_fields]
      apply foldl_flatMap
      intro acc3 f
      rcases f with ⟨fid, fkind, fname, fdesc, fdts, fsrc, frefs, fsub, fpar, frep, feq⟩
      cases fsrc with
      | none =>
        simp only [Field.name, Field.kind, Field.id, Field.source,
          add_error_with_context]
        split_ifs <;> simp
      | some src =>
        rcases src with ⟨ss, sex, str2, sfmt⟩
        cases sex <;>
          · simp only [Field.name, Field.kind, Field.id, Field.source,
              add_error_with_context]
            split_ifs <;> simp
    rw [hfields]
    simp only [add_error_with_context]
    split_ifs <;> simp

/-- C7 counterexample: the only field of `metadataEmptyFileSetRef` declares a
source whose referenced-resource id (a file-set reference) is empty, so the
original claim demands an error issue for it; the validator — the record-set
pass and every other pass — emits nothing at all on this tree. -/
theorem claim_C7_counterexample :
    validate_metadata metadataEmptyFileSetRef = [] := by
  decide

/-- C3: the code contradicts the claim on a valid digest. The first conjunct
certifies that the digest of `metadataValidSha` is exactly 64 hexadecimal
characters; still the distributions pass emits the digest-format error issue
for it, because the condition of the error branch in validate.rs lines
266-274 starts `file_object.sha256.is_some() || ...`, which already holds
whenever a digest is present. The remaining conjuncts evaluate the parts of
the claim the code does satisfy: an absent digest yields exactly the
recommendation warning, and a 63-character digest yields the error issue. -/
theorem claim_C3 :
    isValidSha256 sha64 = true
      ∧ validate_distributions [] metadataValidSha =
          [⟨IssueSeverity.Error,
            "Invalid SHA256 hash format. Expected 64 hexadecimal characters.",
            some "Metadata(id:n) > FileObject(fileObject)"⟩]
      ∧ validate_distributions [] metadataNoSha =
          [⟨IssueSeverity.Warning,
            "Property \"https://schema.org/sha256\" is recommended for file integrity verification.",
            some "Metadata(id:n) > FileObject(fileObject)"⟩]
      ∧ validate_distributions [] metadataShortSha =
          [⟨IssueSeverity.Error,
            "Invalid SHA256 hash format. Expected 64 hexadecimal characters.",
            some "Metadata(id:n) > FileObject(fileObject)"⟩] := by
  refine ⟨by decide, by decide, by decide, by decide⟩

/-- C1: decoding recognized bare tokens does not produce the named variants.
Because `DataType` is an untagged serde enum, its variant renames are inert
and its unit variants deserialize only from JSON null, so every recognized
CURIE token string falls through to `CustomIri` carrying the token verbatim
(only the part of the claim about unrecognized tokens holds), and null
resolves to the first unit variant, `Enumeration`. -/
theorem claim_C1 :
    decode_data_type (Json.str "sc:Boolean") = some (DataType.CustomIri "sc:Boolean")
      ∧ decode_data_type (Json.str "sc:Integer") = some (DataType.CustomIri "sc:Integer")
      ∧ decode_data_type (Json.str "cr:Split") = some (DataType.CustomIri "cr:Split")
      ∧ decode_data_type (Json.str "some:Unknown") = some (DataType.CustomIri "some:Unknown")
      ∧ decode_data_type Json.null = some DataType.Enumeration
      ∧ DataType.CustomIri "sc:Boolean" ≠ DataType.Boolean := by
  exact ⟨rfl, rfl, rfl, rfl, rfl, by decide⟩

/-- C2: the codec does not round-trip. The untagged `DataType` serializes each
unit variant as JSON null and deserializes null to the first unit variant, so
a tree holding the data type `Boolean` comes back holding `Enumeration`: the
decode of the encode differs from the original at any `dataType` list that
mentions a named scalar type other than `Enumeration`. -/
theorem claim_C2 :
    encode_data_type DataType.Boolean = Json.null
      ∧ decode_data_type (encode_data_type DataType.Boolean) = some DataType.Enumeration
      ∧ (decode_data_type (encode_data_type DataType.Boolean) = some DataType.Boolean → False)
      ∧ one_or_many decode_data_type (Json.arr ((encode_data_type DataType.Boolean) :: []))
          = some [DataType.Enumeration] := by
  refine ⟨rfl, rfl, ?_, rfl⟩
  intro h
  simp only [encode_data_type, decode_data_type, Option.some.injEq] at h
  exact absurd h (by decide)

/-- A decoder success on a non-array value makes `one_or_many` wrap it, and
the one-element array decodes to the same one-element list. -/
theorem one_or_many_scalar {α : Type} (d : Json → Option α) (j : Json) (t : α)
    (hd : d j = some t) (harr : j.is_array = false) :
    one_or_many d j = some [t] ∧ one_or_many d (Json.arr [j]) = some [t] := by
  constructor
  · simp [one_or_many, harr, hd]
  · simp [one_or_many, Json.is_array, List.mapM, List.mapM.loop, hd]

/-- C6: for every JSON value decodable as a `DataType`, decoding the lone
scalar and decoding the one-element array through `one_or_many` both yield the
same single-element list; and the same holds for `one_or_many` over any
element decoder applied to any non-array value, which is how `key`, the
record-level `dataType` and `references` are wired to the same combinator. -/
theorem claim_C6 :
    (∀ (j : Json) (t : DataType), decode_data_type j = some t →
        one_or_many decode_data_type j = some [t]
          ∧ one_or_many decode_data_type (Json.arr [j]) = some [t])
      ∧ (∀ (α : Type) (d : Json → Option α) (j : Json) (t : α),
          d j = some t → j.is_array = false →
            one_or_many d j = some [t] ∧ one_or_many d (Json.arr [j]) = some [t]) := by
  constructor
  · intro j t hd
    have harr : j.is_array = false := by
      cases j <;> simp_all [decode_data_type, decode_bounding_box_format, Json.is_array]
    exact one_or_many_scalar decode_data_type j t hd harr
  · intro α d j t hd harr
    exact one_or_many_scalar d j t hd harr

/-- Witness for C6 at a concrete input: the string token and its one-element
array both decode to the same one-element data-type list. -/
theorem claim_C6_witness :
    one_or_many decode_data_type (Json.str "sc:Text") = some [DataType.CustomIri "sc:Text"]
      ∧ one_or_many decode_data_type (Json.arr [Json.str "sc:Text"])
          = some [DataType.CustomIri "sc:Text"] :=
  claim_C6.1 (Json.str "sc:Text") (DataType.CustomIri "sc:Text") rfl

/-- C5: scalar type inference classifies by the fixed first-match priority of
core.rs lines 128-160 and never yields `DateTime`; the seven sample
classifications of the claim all evaluate as stated, the RFC 3339 timestamp
included, which lands in `Date`. -/
theorem claim_C5 :
    (∀ s : String, DataType.from_string s ≠ DataType.DateTime)
      ∧ DataType.from_string "42" = DataType.Integer
      ∧ DataType.from_string "3.14" = DataType.Float
      ∧ DataType.from_string "true" = DataType.Boolean
      ∧ DataType.from_string "FALSE" = DataType.Boolean
      ∧ DataType.from_string "2023-05-01" = DataType.Date
      ∧ DataType.from_string "2023-05-01T10:00:00Z" = DataType.Date
      ∧ DataType.from_string "hello" = DataType.Text := by
  refine ⟨?_, by decide, by decide, by decide, by decide, by decide, by decide, by decide⟩
  intro s
  simp only [DataType.from_string]
  split_ifs <;> simp

/-- Dropping the leading elements satisfying `p` twice is the same as
dropping it once. -/
theorem dropWhile_dropWhile (p : α → Bool) (l : List α) :
    (l.dropWhile p).dropWhile p = l.dropWhile p := by
  induction l with
  | nil => simp
  | cons a t ih =>
    by_cases h : p a = true <;> simp [List.dropWhile_cons, h, ih]

/-- The head surviving a `dropWhile` fails the predicate. -/
theorem dropWhile_head_false (p : α → Bool) (l : List α) (a : α) (t : List α)
    (h : l.dropWhile p = a :: t) : p a = false := by
  induction l with
  | nil => simp at h
  | cons x xs ih =>
    by_cases hx : p x = true
    · exact ih (by simpa [List.dropWhile_cons, hx] using h)
    · rw [List.dropWhile_cons, if_neg hx] at h
      injection h with h1 h2
      subst h1
      simpa using hx

/-- Trimming is idempotent. -/
theorem trimChars_idem (l : List Char) : trimChars (trimChars l) = trimChars l := by
  unfold trimChars
  set A := l.dropWhile isRustWhitespace with hA
  set B := (A.reverse.dropWhile isRustWhitespace).reverse with hBdef
  have h1 : B.dropWhile isRustWhitespace = B := by
    cases hB : B with
    | nil => simp
    | cons b bt =>
      have hArep : A = b :: (bt ++ (A.reverse.takeWhile isRustWhitespace).reverse) := by
        conv_lhs => rw [← List.reverse_reverse A]
        conv_lhs =>
          rw [← List.takeWhile_append_dropWhile isRustWhitespace A.reverse]
        rw [List.reverse_append, ← hBdef, hB]
        simp
      have hdl : l.dropWhile isRustWhitespace
          = b :: (bt ++ (A.reverse.takeWhile isRustWhitespace).reverse) := by
        rw [← hA]; exact hArep
      have hpb : isRustWhitespace b = false := dropWhile_head_false _ _ _ _ hdl
      simp [List.dropWhile_cons, hpb]
  rw [h1]
  have h2 : B.reverse = A.reverse.dropWhile isRustWhitespace := by
    rw [hBdef, List.reverse_reverse]
  rw [h2, dropWhile_dropWhile, ← h2, List.reverse_reverse]

/-- C10: scalar type inference is invariant under surrounding whitespace —
inferring on the Rust-trimmed string agrees with inferring on the string
itself, because the inference trims first and trimming is idempotent. -/
theorem claim_C10 (s : String) :
    DataType.from_string (rust_trim s) = DataType.from_string s := by
  have hdata : (rust_trim s).data = trimChars s.data := rfl
  simp only [DataType.from_string, hdata, trimChars_idem]

/-- Witness instantiating C10 where the whitespace matters: the padded sample
still infers `Integer`. -/
theorem claim_C10_padded : DataType.from_string "  42 " = DataType.Integer := by
  decide

/-- C8: generating from a two-column header `id,value` with first data row
`1,3.14` yields exactly one distribution — a `FileObject` whose id is the file
name, whose encoding format is `text/csv` and whose digest is the supplied
64-hex digest — and exactly one record set `main`, keyed by a reference to
itself, holding the fields `main/id` (inferred `Integer`) and `main/value`
(inferred `Float`); with no sample row each column infers `Url`. -/
theorem claim_C8 (file_name stem : String) (file_size : Nat) (sha today : String)
    (hsha : isValidSha256 sha = true) :
    ((generate_metadata_from_csv file_name stem file_size sha today ["id", "value"]
        (some ["1", "3.14"])).distribution =
      [⟨Resource.FileObject
          { id := file_name
            name := file_name
            content_url := none
            content_size := some (toString file_size ++ " B")
            encoding_format := "text/csv"
            sha256 := some sha }⟩]
      ∧ isValidSha256 sha = true)
    ∧ (generate_metadata_from_csv file_name stem file_size sha today ["id", "value"]
        (some ["1", "3.14"])).record_sets =
      some [{ id := "main"
              kind := CrType.RecordSet
              keys := [⟨"main"⟩]
              fields :=
                [Field.mk "main/id" CrType.Field "id" "Field for id" [DataType.Integer]
                  (some { source := SourceRef.FileObject ⟨file_name⟩
                          extract := some (Extract.Column "id")
                          transform := none
                          format := none })
                  [] none none none none,
                 Field.mk "main/value" CrType.Field "value" "Field for value" [DataType.Float]
                  (some { source := SourceRef.FileObject ⟨file_name⟩
                          extract := some (Extract.Column "value")
                          transform := none
                          format := none })
                  [] none none none none]
              record_types := [] }]
    ∧ recordSetFieldTypes
        (generate_metadata_from_csv file_name stem file_size sha today ["id", "value"] none) =
      [[DataType.Url], [DataType.Url]] := by
  refine ⟨⟨rfl, hsha⟩, ?_, rfl⟩
  rfl

/-- Witness for C8 at concrete inputs: the hypothesis holds of the concrete
64-hex digest, and the no-sample fallback projection is `Url` for both
columns. -/
theorem claim_C8_witness :
    recordSetFieldTypes
        (generate_metadata_from_csv "data.csv" "data" 123 sha64 "2026-10-12" ["id", "value"] none) =
      [[DataType.Url], [DataType.Url]] :=
  (claim_C8 "data.csv" "data" 123 sha64 "2026-10-12" (by decide)).2.2

end Croissant
